import Mathlib

/-!
Verification of the persession library (a persistent requests.Session wrapper
with a login helper) against its natural-language specification.

The embedding models the repository's Python modules:
  * persession/main.py — the Session class: cache loading on construction,
    the login / is_logged_in operations, the send override that implements
    the cache-trigger policy, and cache_session (the cache write);
  * persession.py — the older Session.test_login string-marker probe;
  * login.py — the Login class's _test_login string-marker probe.

Network traffic and cache writes are modelled as explicit event traces; the
HTTP capability is an oracle mapping (method, url, allowRedirects) to a
status code and a response body. Machine-level Python behaviour that the
code depends on (timedelta normalisation, calling a non-callable str) is
modelled explicitly where it matters.
-/

namespace Persession

/-- ASCII lowering of one character, the effect of Python str.lower on the
method names and markers the code compares (all ASCII). -/
def lowerChar (c : Char) : Char :=
  if 'A' ≤ c ∧ c ≤ 'Z' then Char.ofNat (c.toNat + 32) else c

/-- Python str.lower over a string, character by character. -/
def pyLower (s : String) : String :=
  ⟨s.data.map lowerChar⟩

/-- Session cache types, from the CacheType enum in persession/main.py. -/
inductive CacheType
  | MANUAL
  | AFTER_EACH_REQUEST
  | AFTER_EACH_POST
  | AFTER_EACH_LOGIN
deriving DecidableEq, Repr

/-- Login status, from the LoginStatus enum in persession/main.py.
The enum has exactly two members: SUCCESS and FAILURE. -/
inductive LoginStatus
  | SUCCESS
  | FAILURE
deriving DecidableEq, Repr

/-- Observable side effects of a Session operation: a GET request (recording
whether redirect following was enabled), a POST request, or a write of the
session cache file. -/
inductive Event
  | getReq (url : String) (allowRedirects : Bool)
  | postReq (url : String)
  | cacheWrite
deriving DecidableEq, Repr

/-- The HTTP capability as an oracle: the status code the server returns for
a request with the given method, url and redirect-following flag. -/
structure Net where
  status : String → String → Bool → Nat

/-- The condition under which the Session.send override calls cache_session:
cache_type is AFTER_EACH_REQUEST, or it is AFTER_EACH_POST and the prepared
request's method is present and lowercases to "post"
(persession/main.py lines 225-228). -/
def send_caches (cache_type : CacheType) (method : Option String) : Bool :=
  cache_type == CacheType.AFTER_EACH_REQUEST ||
    (cache_type == CacheType.AFTER_EACH_POST &&
      (match method with
       | none => false
       | some m => pyLower m == "post"))

/-- The Session.send override (persession/main.py lines 223-230): perform the
request through the HTTP capability, then write the cache when the trigger
policy says so. Returns the response status and the emitted event trace. -/
def send (net : Net) (cache_type : CacheType) (method : String) (url : String)
    (allowRedirects : Bool) : Nat × List Event :=
  let status := net.status method url allowRedirects
  let reqEv : Event :=
    if pyLower method = "post" then Event.postReq url else Event.getReq url allowRedirects
  (status, reqEv :: (if send_caches cache_type (some method) then [Event.cacheWrite] else []))

/-- Session.is_logged_in (persession/main.py lines 205-221): an empty login
url reports not-logged-in with no network traffic; otherwise one GET with
allow_redirects disabled, logged in iff the status code is exactly 302. -/
def is_logged_in (net : Net) (cache_type : CacheType) (login_url : String) :
    Bool × List Event :=
  if login_url = "" then (false, [])
  else
    let r := send net cache_type "GET" login_url false
    (r.1 == 302, r.2)

/-- Session.login (persession/main.py lines 141-167): POST the payload to the
url, then probe with is_logged_in on the same url; on a positive probe write
the cache when the trigger is AFTER_EACH_LOGIN and return SUCCESS, otherwise
return FAILURE. Both the POST and the probe GET pass through the send
override, so they carry its trigger-policy cache writes in their traces. -/
def login (net : Net) (cache_type : CacheType) (url : String) :
    LoginStatus × List Event :=
  let post := send net cache_type "POST" url true
  let chk := is_logged_in net cache_type url
  if chk.1 then
    (LoginStatus.SUCCESS,
      post.2 ++ chk.2 ++
        (if cache_type = CacheType.AFTER_EACH_LOGIN then [Event.cacheWrite] else []))
  else
    (LoginStatus.FAILURE, post.2 ++ chk.2)

/-- Session.get through the send override: a plain GET request
(requests follows redirects by default). -/
def get_request (net : Net) (cache_type : CacheType) (url : String) : Nat × List Event :=
  send net cache_type "GET" url true

/-- Session.post through the send override: a plain POST request. -/
def post_request (net : Net) (cache_type : CacheType) (url : String) : Nat × List Event :=
  send net cache_type "POST" url true

/-- Number of POST requests in a trace. -/
def countPosts (evs : List Event) : Nat :=
  (evs.filter fun e => match e with | Event.postReq _ => true | _ => false).length

/-- Number of GET requests in a trace. -/
def countGets (evs : List Event) : Nat :=
  (evs.filter fun e => match e with | Event.getReq _ _ => true | _ => false).length

/-- Number of cache-file writes in a trace. -/
def countWrites (evs : List Event) : Nat :=
  (evs.filter fun e => match e with | Event.cacheWrite => true | _ => false).length

/-- Whether an operation's trace persisted the session at least once. -/
def persists (evs : List Event) : Bool :=
  evs.contains Event.cacheWrite

/-- The serializable payload of a pickled Session: an opaque snapshot of the
instance dictionary (headers, cookies, proxies). Its contents are never
inspected by the cache logic, only adopted wholesale. -/
structure Snapshot where
  payload : Nat
deriving DecidableEq, Repr

/-- What a cache file's bytes deserialize to: a pickled Session instance
carrying a snapshot, a well-formed pickle of some other type (pickle.load
succeeds but the isinstance check fails), or bytes on which pickle.load
itself raises. -/
inductive Blob
  | sessionBlob (snap : Snapshot)
  | foreign
  | corrupt
deriving DecidableEq, Repr

/-- A cache file on disk: its age in whole seconds (now minus mtime, negative
when the mtime lies in the future of the clock) and its deserialized content. -/
structure CacheFile where
  age : Int
  blob : Blob
deriving DecidableEq, Repr

/-- Python exceptions the cache paths can raise: pickle.load failing on
corrupt bytes, and the TypeError from calling a non-callable value. -/
inductive PyError
  | pickleError
  | typeError
deriving DecidableEq, Repr

/-- Python timedelta normalisation: a timedelta of t total seconds is stored
as days plus a seconds field in 0..86399, so the .seconds attribute read by
load_session is t mod 86400 (floored modulus, hence nonnegative even for a
negative delta). -/
def timedelta_seconds (total : Int) : Int :=
  total % 86400

/-- Session.load_session (persession/main.py lines 169-196): a missing file
is a miss; otherwise compute (datetime.now() - mtime).seconds and, when that
value is below cache_timeout, unpickle the file — corrupt bytes raise out of
the method, a non-Session value is logged as corrupted and is a miss, and a
Session value's dictionary is adopted. An at-or-over-timeout age is a miss.
Returns (the boolean the method returns, the adopted snapshot if any). -/
def load_session (file : Option CacheFile) (cache_timeout : Int) :
    Except PyError (Bool × Option Snapshot) :=
  match file with
  | none => Except.ok (false, none)
  | some f =>
    let last_modified_time := timedelta_seconds f.age
    if last_modified_time < cache_timeout then
      match f.blob with
      | Blob.corrupt => Except.error PyError.pickleError
      | Blob.foreign => Except.ok (false, none)
      | Blob.sessionBlob snap => Except.ok (true, some snap)
    else Except.ok (false, none)

/-- The object tempfile.NamedTemporaryFile returns, as far as
get_temp_file_path touches it: its name attribute, which is a str. -/
structure NamedTempFile where
  name : String
deriving DecidableEq, Repr

/-- Python call semantics for a str value: a str is not callable, so a call
expression on it raises TypeError. -/
def callStr (_ : String) : Except PyError String :=
  Except.error PyError.typeError

/-- get_temp_file_path (persession/main.py lines 49-62): create a named
temporary file and evaluate temp_file.name() — a call on the str attribute
name, which raises TypeError; the finally block closes the file and the
exception propagates to the caller. -/
def get_temp_file_path (temp_file : NamedTempFile) : Except PyError String :=
  callStr temp_file.name

/-- The cache-path expression in Session.__init__ (persession/main.py lines
114-115): keep a truthy caller-supplied path, fall back to
get_temp_file_path for None or the empty string. -/
def resolve_cache_path (temp_file : NamedTempFile) :
    Option String → Except PyError String
  | none => get_temp_file_path temp_file
  | some p => if p = "" then get_temp_file_path temp_file else Except.ok p

/-- Outcome of Session.__init__: the resolved cache file path and the
snapshot restored from the cache, if any (none means the default fresh
state). -/
structure InitResult where
  cache_file_path : String
  restored : Option Snapshot
deriving DecidableEq, Repr

/-- The cache-related tail of Session.__init__ (persession/main.py lines
106-116): resolve the cache file path, then run load_session on the file the
filesystem holds at that path. Any exception raised along the way (the
TypeError of the default-path fallback, or pickle.load failing inside
load_session) propagates to the constructor's caller. -/
def session_init (temp_file : NamedTempFile) (fs : String → Option CacheFile)
    (cache_file_path : Option String) (cache_timeout : Int) :
    Except PyError InitResult :=
  match resolve_cache_path temp_file cache_file_path with
  | Except.error e => Except.error e
  | Except.ok path =>
    match load_session (fs path) cache_timeout with
    | Except.error e => Except.error e
    | Except.ok r => Except.ok { cache_file_path := path, restored := r.2 }

/-- File-system operations cache_session can perform, at the granularity
that distinguishes in-place writing from an atomic temp-and-rename
replacement. -/
inductive FsOp
  | openTrunc (path : String)
  | writeBytes (path : String)
  | rename (src : String) (dst : String)
deriving DecidableEq, Repr

/-- Session.cache_session (persession/main.py lines 198-203) as its sequence
of file operations: open(cache_file_path, "wb") truncates the target in
place, then pickle.dump writes the serialized bytes into it. -/
def cache_session_ops (cache_file_path : String) : List FsOp :=
  [FsOp.openTrunc cache_file_path, FsOp.writeBytes cache_file_path]

/-- A cache file's state as the write path affects it: content and mtime. -/
structure FileState where
  content : Option Blob
  mtime : Int
deriving DecidableEq, Repr

/-- Effect of Session.cache_session on the cache file: the file now holds
the pickled Session snapshot and its modification time is the time of the
write. -/
def cache_session_fs (now : Int) (snap : Snapshot) : FileState :=
  { content := some (Blob.sessionBlob snap), mtime := now }

/-- The write discipline §5 of the spec requires, stated over a trace of
file operations: the snapshot is written to a temporary file distinct from
the target, which is then renamed over the target, and the target itself is
never opened for in-place writing. This definition follows the spec's words;
it is the yardstick cache_session_ops is compared against. -/
def atomicReplaceSpec (path : String) (ops : List FsOp) : Prop :=
  ∃ tmp, tmp ≠ path ∧
    FsOp.writeBytes tmp ∈ ops ∧
    FsOp.rename tmp path ∈ ops ∧
    FsOp.openTrunc path ∉ ops

end Persession

namespace PySession

/-- Errors Session.test_login in persession.py can raise: the invalid-probe
exception for an empty url or marker, and the login-test-failed exception
for a marker the body does not contain. -/
inductive TestError
  | invalidTest
  | testFailed
deriving DecidableEq, Repr

/-- Whether the first list is a leading segment of the second. -/
def listStartsWith : List Char → List Char → Bool
  | [], _ => true
  | _ :: _, [] => false
  | a :: as, b :: bs => a == b && listStartsWith as bs

/-- Whether the needle occurs as a contiguous segment of the haystack (an
empty needle occurs everywhere, as for Python str.find). -/
def listContainsSub (hay needle : List Char) : Bool :=
  match hay with
  | [] => listStartsWith needle []
  | _ :: t => listStartsWith needle hay || listContainsSub t needle

/-- Python str.find(needle) ≥ 0: the needle occurs in the haystack. -/
def py_find_found (hay needle : String) : Bool :=
  listContainsSub hay.data needle.data

/-- Session.test_login (persession.py lines 197-211): raise on an empty url
or marker string; otherwise GET the url (the body oracle), lowercase both
body and marker, raise when the marker is absent, and set the logged-in flag
to true when it is found. Returns the flag's new value. -/
def test_login (body : String → String) (url : String) (string : String) :
    Except TestError Bool :=
  if url = "" ∨ string = "" then Except.error TestError.invalidTest
  else if py_find_found (Persession.pyLower (body url)) (Persession.pyLower string) then
    Except.ok true
  else Except.error TestError.testFailed

end PySession

namespace PyLogin

/-- Login._test_login (login.py lines 196-210): with an empty test url or
test string the method returns at once, leaving the logged-in flag as it
was; otherwise GET the test url, raise when the lowercased marker is absent
from the lowercased body, and set the flag to true when found. Returns the
flag's new value. -/
def test_login_priv (body : String → String) (test_url : String)
    (test_string : String) (flag : Bool) : Except PySession.TestError Bool :=
  if test_url = "" ∨ test_string = "" then Except.ok flag
  else if PySession.py_find_found (Persession.pyLower (body test_url))
      (Persession.pyLower test_string) then
    Except.ok true
  else Except.error PySession.TestError.testFailed

end PyLogin

open Persession

/-- An HTTP oracle on which every GET probe reports the already-logged-in
convention (status 302 without following redirects). -/
def net302 : Net := ⟨fun _ _ _ => 302⟩

/-- An HTTP oracle on which every request returns status 200, so no probe
ever reports logged in. -/
def net200 : Net := ⟨fun _ _ _ => 200⟩

/-- Lowercasing the POST method literal. -/
theorem post_toLower : pyLower "POST" = "post" := by decide

/-- Lowercasing the GET method literal. -/
theorem get_toLower : pyLower "GET" = "get" := by decide

/-- C1. The claim says a login call on an already-logged-in session returns
AlreadyLoggedIn with no POST. On the code, with an oracle on which the probe
reports logged in (GET status 302) before login is called, login still
issues one POST: the method posts unconditionally before probing, and the
LoginStatus enum has no AlreadyLoggedIn member at all. -/
theorem c1_counterexample :
    (is_logged_in net302 CacheType.MANUAL "u").1 = true ∧
    countPosts (login net302 CacheType.MANUAL "u").2 = 1 := by
  constructor <;> rfl

/-- C1 amended: Session.login has no forceLogin parameter and no
AlreadyLoggedIn short-circuit; every login call on a non-empty url issues
exactly one POST to the url followed by exactly one detection GET, and
returns SUCCESS precisely when the post-login probe's status is 302. -/
theorem c1_login_always_posts (net : Net) (ct : CacheType) (url : String)
    (hu : url ≠ "") :
    countPosts (login net ct url).2 = 1 ∧
    countGets (login net ct url).2 = 1 ∧
    ((login net ct url).1 = LoginStatus.SUCCESS ↔ net.status "GET" url false = 302) := by
  by_cases h : net.status "GET" url false = 302 <;>
    cases ct <;>
      simp [login, is_logged_in, send, send_caches, countPosts, countGets,
        post_toLower, get_toLower, hu, h, List.filter_append]

/-- C1 amended, witnessed at a concrete input: on the all-302 oracle with
trigger MANUAL and url "u", login issues one POST, one GET, and succeeds. -/
theorem c1_witness :
    countPosts (login net302 CacheType.MANUAL "u").2 = 1 ∧
    countGets (login net302 CacheType.MANUAL "u").2 = 1 ∧
    ((login net302 CacheType.MANUAL "u").1 = LoginStatus.SUCCESS ↔
      net302.status "GET" "u" false = 302) :=
  c1_login_always_posts net302 CacheType.MANUAL "u" (by decide)

/-- A temporary-file stand-in for the claims where the constructor is given
an explicit cache path and never reaches the default-path fallback. -/
def tmp0 : NamedTempFile := ⟨"/tmp/Session0.dat"⟩

/-- C2. The claim says construction never raises for any cache-restore
failure, corrupt blobs included. On the code, a fresh cache file whose bytes
make pickle.load raise propagates that exception out of load_session and
out of the constructor. -/
theorem c2_counterexample :
    session_init tmp0 (fun _ => some { age := 0, blob := Blob.corrupt })
      (some "cache.dat") 3600 = Except.error PyError.pickleError := by
  rfl

/-- C2 amended: construction completes in the default empty state, raising
nothing, when the cache file is absent, when its age reading is at or past
the timeout, or when it deserializes to a value that is not a Session
instance; only a blob on which deserialization itself raises escapes to the
caller. -/
theorem c2_init_swallows_misses (path : String) (timeout : Int) (f : CacheFile)
    (hp : path ≠ "") :
    session_init tmp0 (fun _ => none) (some path) timeout =
      Except.ok { cache_file_path := path, restored := none } ∧
    (¬ timedelta_seconds f.age < timeout →
      session_init tmp0 (fun _ => some f) (some path) timeout =
        Except.ok { cache_file_path := path, restored := none }) ∧
    (f.blob = Blob.foreign →
      session_init tmp0 (fun _ => some f) (some path) timeout =
        Except.ok { cache_file_path := path, restored := none }) := by
  refine ⟨?_, ?_, ?_⟩
  · simp [session_init, resolve_cache_path, load_session, hp]
  · intro hstale
    simp [session_init, resolve_cache_path, load_session, hp, hstale]
  · intro hforeign
    by_cases hfresh : timedelta_seconds f.age < timeout <;>
      simp [session_init, resolve_cache_path, load_session, hp, hfresh, hforeign]

/-- C2 amended, witnessed: a foreign-typed blob of age 0 with the default
timeout is swallowed and construction ends in the default state. -/
theorem c2_witness :
    session_init tmp0 (fun _ => some { age := 0, blob := Blob.foreign })
      (some "cache.dat") 3600 =
      Except.ok { cache_file_path := "cache.dat", restored := none } :=
  (c2_init_swallows_misses "cache.dat" 3600 { age := 0, blob := Blob.foreign }
    (by decide)).2.2 rfl

/-- A concrete snapshot for evaluating the loader. -/
def snap0 : Snapshot := ⟨7⟩

/-- C5. At cache_timeout = 90000 seconds (25 hours) and a cache file exactly
90000 seconds old, the code loads the snapshot: (now - mtime).seconds keeps
only the sub-day component, 90000 mod 86400 = 3600, and 3600 < 90000. The
claim (and the code's own comment, which asks for age strictly below the
timeout) requires an age equal to the timeout to be a miss. -/
theorem c5_load_at_timeout_age :
    load_session (some { age := 90000, blob := Blob.sessionBlob snap0 }) 90000 =
      Except.ok (true, some snap0) := by
  rfl

/-- The operation kinds of the spec's §4.3 policy table. -/
inductive OperationKind
  | request
  | post
  | loginSuccess
deriving DecidableEq, Repr

/-- The §4.3 policy table, written from the spec's words: whether a
completed operation of the given kind persists the session under the given
trigger. This is the yardstick the code's behaviour is compared against. -/
def shouldPersistSpec : CacheType → OperationKind → Bool
  | CacheType.MANUAL, _ => false
  | CacheType.AFTER_EACH_REQUEST, _ => true
  | CacheType.AFTER_EACH_POST, OperationKind.post => true
  | CacheType.AFTER_EACH_POST, _ => false
  | CacheType.AFTER_EACH_LOGIN, OperationKind.loginSuccess => true
  | CacheType.AFTER_EACH_LOGIN, _ => false

/-- C3. The table says a successful login under AFTER_EACH_POST does not
persist, but on the code a login is implemented as a POST followed by the
probe GET, and the send override persists after the internal POST: under
AFTER_EACH_POST a successful login does write the cache. -/
theorem c3_counterexample :
    shouldPersistSpec CacheType.AFTER_EACH_POST OperationKind.loginSuccess = false ∧
    (login net302 CacheType.AFTER_EACH_POST "u").1 = LoginStatus.SUCCESS ∧
    persists (login net302 CacheType.AFTER_EACH_POST "u").2 = true := by
  refine ⟨rfl, rfl, rfl⟩

/-- C3 amended: the code matches the §4.3 table on the request and post
columns for all four triggers, and on the login(success) column for MANUAL,
AFTER_EACH_REQUEST and AFTER_EACH_LOGIN; but under AFTER_EACH_POST a
successful login also persists (through the send override firing on the
login's internal POST), so the login column is the table's value or-ed with
being the AFTER_EACH_POST trigger. -/
theorem c3_policy_table (net : Net) (ct : CacheType) (url : String)
    (hu : url ≠ "") (hs : net.status "GET" url false = 302) :
    persists (get_request net ct url).2 = shouldPersistSpec ct OperationKind.request ∧
    persists (post_request net ct url).2 = shouldPersistSpec ct OperationKind.post ∧
    (login net ct url).1 = LoginStatus.SUCCESS ∧
    persists (login net ct url).2 =
      (shouldPersistSpec ct OperationKind.loginSuccess ||
        ct == CacheType.AFTER_EACH_POST) := by
  cases ct <;>
    simp [get_request, post_request, login, is_logged_in, send, send_caches,
      persists, shouldPersistSpec, post_toLower, get_toLower, hu, hs]

/-- C3 amended, witnessed under the AFTER_EACH_LOGIN trigger on the all-302
oracle. -/
theorem c3_witness :
    persists (get_request net302 CacheType.AFTER_EACH_LOGIN "u").2 =
      shouldPersistSpec CacheType.AFTER_EACH_LOGIN OperationKind.request ∧
    persists (post_request net302 CacheType.AFTER_EACH_LOGIN "u").2 =
      shouldPersistSpec CacheType.AFTER_EACH_LOGIN OperationKind.post ∧
    (login net302 CacheType.AFTER_EACH_LOGIN "u").1 = LoginStatus.SUCCESS ∧
    persists (login net302 CacheType.AFTER_EACH_LOGIN "u").2 =
      (shouldPersistSpec CacheType.AFTER_EACH_LOGIN OperationKind.loginSuccess ||
        CacheType.AFTER_EACH_LOGIN == CacheType.AFTER_EACH_POST) :=
  c3_policy_table net302 CacheType.AFTER_EACH_LOGIN "u" (by decide) rfl

/-- C4. The claim says a failed login never writes the cache under any
trigger. Under AFTER_EACH_POST, a login whose probe never reports 302 ends
in FAILURE yet its trace holds a cache write, fired by the send override on
the login's internal POST. -/
theorem c4_counterexample :
    (login net200 CacheType.AFTER_EACH_POST "u").1 = LoginStatus.FAILURE ∧
    persists (login net200 CacheType.AFTER_EACH_POST "u").2 = true := by
  exact ⟨rfl, rfl⟩

/-- C4 amended: a failed login never fires the login-level
(AFTER_EACH_LOGIN) write — under MANUAL and AFTER_EACH_LOGIN a failed login
writes nothing — but under AFTER_EACH_REQUEST and AFTER_EACH_POST the
login's internal requests persist the session through the send override even
when the login fails. -/
theorem c4_failed_login_writes (net : Net) (ct : CacheType) (url : String)
    (hfail : (login net ct url).1 = LoginStatus.FAILURE) :
    persists (login net ct url).2 =
      (ct == CacheType.AFTER_EACH_REQUEST || ct == CacheType.AFTER_EACH_POST) := by
  by_cases hc : (is_logged_in net ct url).1
  · simp [login, hc] at hfail
  · by_cases hu : url = "" <;>
      cases ct <;>
        simp [is_logged_in, send, hu] at hc <;>
          simp [login, is_logged_in, send, send_caches, persists,
            post_toLower, get_toLower, hu, hc]

/-- C4 amended, witnessed: on the all-200 oracle under MANUAL, login fails
and its trace holds no cache write. -/
theorem c4_witness :
    persists (login net200 CacheType.MANUAL "u").2 =
      (CacheType.MANUAL == CacheType.AFTER_EACH_REQUEST ||
        CacheType.MANUAL == CacheType.AFTER_EACH_POST) :=
  c4_failed_login_writes net200 CacheType.MANUAL "u" rfl

/-- C6. A cache file whose mtime is 10 seconds in the future of the clock
(age -10) under the default 3600-second timeout: Python timedelta
normalisation stores the -10-second delta as days = -1, seconds = 86390, so
the .seconds reading is 86390, not negative; 86390 < 3600 fails and the
loader treats the file as expired — a miss, not fresh, contradicting the
claim that backward clock skew is classified as fresh. -/
theorem c6_future_mtime_is_miss :
    timedelta_seconds (-10) = 86390 ∧
    load_session (some { age := -10, blob := Blob.sessionBlob snap0 }) 3600 =
      Except.ok (false, none) := by
  constructor <;> rfl

/-- C7. The claim says the string-marker login test raises whenever the
probe URL or marker is empty, rather than silently reporting not-logged-in.
The login.py variant does the opposite: with an empty test url it returns
normally and leaves the logged-in flag false. -/
theorem c7_counterexample :
    PyLogin.test_login_priv (fun _ => "welcome, please log out") "" "log out" false =
      Except.ok false := by
  rfl

/-- C7 amended: persession.py's Session.test_login raises the invalid-test
exception on an empty probe url or marker, while login.py's private test
method instead returns silently with the flag unchanged (reporting
not-logged-in); with both non-empty, each lowercases body and marker,
reports logged-in when the marker occurs in the body, and raises the
login-test-failed exception (rather than reporting false) when it does not. -/
theorem c7_string_probe_modes (body : String → String) (url s : String) :
    ((url = "" ∨ s = "") →
      PySession.test_login body url s = Except.error PySession.TestError.invalidTest ∧
      PyLogin.test_login_priv body url s false = Except.ok false) ∧
    (url ≠ "" → s ≠ "" →
      (PySession.py_find_found (pyLower (body url)) (pyLower s) = true →
        PySession.test_login body url s = Except.ok true ∧
        PyLogin.test_login_priv body url s false = Except.ok true) ∧
      (PySession.py_find_found (pyLower (body url)) (pyLower s) = false →
        PySession.test_login body url s = Except.error PySession.TestError.testFailed ∧
        PyLogin.test_login_priv body url s false =
          Except.error PySession.TestError.testFailed)) := by
  constructor
  · intro h
    simp [PySession.test_login, PyLogin.test_login_priv, h]
  · intro hu hs
    constructor <;> intro hfind <;>
      simp [PySession.test_login, PyLogin.test_login_priv, hu, hs, hfind]

/-- C7 amended, witnessed: a body carrying the marker in different case
passes both variants of the test. -/
theorem c7_witness :
    PySession.test_login (fun _ => "Click here to LOG OUT") "https://u" "log out" =
      Except.ok true ∧
    PyLogin.test_login_priv (fun _ => "Click here to LOG OUT") "https://u" "log out"
      false = Except.ok true :=
  ((c7_string_probe_modes (fun _ => "Click here to LOG OUT") "https://u" "log out").2
    (by decide) (by decide)).1 (by decide)

/-- C8. Session.is_logged_in: an empty probe url reports false with no
network traffic at all; a non-empty one issues exactly one GET (to the
probe url, with redirect following disabled) and no POST, and reports
logged-in exactly when the response status is 302. -/
theorem c8_is_logged_in (net : Net) (ct : CacheType) (url : String) :
    (url = "" → is_logged_in net ct url = (false, [])) ∧
    (url ≠ "" →
      countGets (is_logged_in net ct url).2 = 1 ∧
      countPosts (is_logged_in net ct url).2 = 0 ∧
      Event.getReq url false ∈ (is_logged_in net ct url).2 ∧
      ((is_logged_in net ct url).1 = true ↔ net.status "GET" url false = 302)) := by
  constructor
  · intro h
    simp [is_logged_in, h]
  · intro h
    cases ct <;>
      simp [is_logged_in, send, send_caches, countGets, countPosts, get_toLower, h]

/-- C8, witnessed: on the all-302 oracle with a non-empty probe url, the
probe issues one redirect-disabled GET, no POST, and reports logged in. -/
theorem c8_witness :
    countGets (is_logged_in net302 CacheType.MANUAL "u").2 = 1 ∧
    countPosts (is_logged_in net302 CacheType.MANUAL "u").2 = 0 ∧
    Event.getReq "u" false ∈ (is_logged_in net302 CacheType.MANUAL "u").2 ∧
    ((is_logged_in net302 CacheType.MANUAL "u").1 = true ↔
      net302.status "GET" "u" false = 302) :=
  (c8_is_logged_in net302 CacheType.MANUAL "u").2 (by decide)

/-- C9. The claim says every cache write goes to a temporary file that is
renamed over the target. cache_session's operation trace opens the target
itself in truncating write mode and writes into it; it contains no rename,
so it does not realise the spec's atomic-replace pattern. -/
theorem c9_counterexample :
    ¬ atomicReplaceSpec "cache.dat" (cache_session_ops "cache.dat") := by
  rintro ⟨tmp, hne, hw, hr, hopen⟩
  simp [cache_session_ops] at hr

/-- C9 amended: cache_session writes the pickled session directly into the
target file — its operation trace is exactly open-for-truncating-write on
the target followed by writing the bytes there, with no temporary file and
no rename, so a concurrent reader can observe a torn file — and the write
does replace the file's content with the snapshot and set its modification
time to the time of the write. -/
theorem c9_write_in_place (path : String) (now : Int) (snap : Snapshot) :
    cache_session_ops path = [FsOp.openTrunc path, FsOp.writeBytes path] ∧
    cache_session_fs now snap =
      { content := some (Blob.sessionBlob snap), mtime := now } := by
  exact ⟨rfl, rfl⟩

/-- C10. get_temp_file_path calls temp_file.name(), but the name attribute
of a named temporary file is a str, which is not callable: the call raises
TypeError for every temporary file, so a Session constructed without a
cache file path (or with an empty one) always propagates TypeError and can
never be constructed. -/
theorem c10_default_path_raises (temp_file : NamedTempFile)
    (fs : String → Option CacheFile) (timeout : Int) :
    get_temp_file_path temp_file = Except.error PyError.typeError ∧
    session_init temp_file fs none timeout = Except.error PyError.typeError ∧
    session_init temp_file fs (some "") timeout = Except.error PyError.typeError := by
  exact ⟨rfl, rfl, rfl⟩
